import Mathlib

/-!
Shallow embedding of the Pomodoro timer state machine implemented in
src/src/app/page.tsx, together with proofs about its specification.

The React component keeps four pieces of timer state (timeLeft, isActive,
isBreak, completedPomodoros) and four configuration values (workDuration,
shortBreakDuration, longBreakDuration, alarmVolume).  The timer useEffect
decrements timeLeft once per second while active and, when timeLeft reaches
0, fires the alarm and performs the phase transition.  We model one firing
of the interval together with the re-run of the effect as the function
tickC below; toggleTimer, resetTimer and resetSession are the button
handlers, and totalDuration / progress are the derived display values.
-/

namespace Pomodoro

/-- Configuration state variables of the component (lines 14-17 of
page.tsx): workDuration, shortBreakDuration, longBreakDuration in minutes,
alarmVolume in [0,1]. -/
structure Config where
  workDuration : Nat
  shortBreakDuration : Nat
  longBreakDuration : Nat
  alarmVolume : ℚ
  deriving DecidableEq

/-- Timer state variables of the component (lines 7-10 of page.tsx):
timeLeft in seconds, isActive, isBreak, completedPomodoros. -/
structure TimerState where
  timeLeft : Nat
  isActive : Bool
  isBreak : Bool
  completedPomodoros : Nat
  deriving DecidableEq

/-- Initial timer state: useState(25 * 60), false, false, 0. -/
def initialTimer : TimerState := ⟨25 * 60, false, false, 0⟩

/-- Initial configuration: useState(25), useState(5), useState(15),
useState(0.5). -/
def initialConfig : Config := ⟨25, 5, 15, 1 / 2⟩

/-- The timeLeft == 0 branch of the timer useEffect (lines 53-70 of
page.tsx): on break completion clear isBreak and reload the work
duration; on focus completion increment completedPomodoros, set isBreak,
and load the long break when the incremented count is divisible by 4,
otherwise the short break; in both cases set isActive to false. -/
def effectStep (cfg : Config) (s : TimerState) : TimerState :=
  if s.timeLeft = 0 then
    if s.isBreak then
      { s with isBreak := false, timeLeft := cfg.workDuration * 60, isActive := false }
    else
      let newCompletedCount := s.completedPomodoros + 1
      { s with
        completedPomodoros := newCompletedCount,
        isBreak := true,
        timeLeft :=
          (if newCompletedCount % 4 = 0 then cfg.longBreakDuration
           else cfg.shortBreakDuration) * 60,
        isActive := false }
  else s

/-- One firing of the 1-second interval (scheduled only while isActive and
timeLeft > 0, lines 49-52) followed by the re-run of the effect on the new
state: the decrement, and the phase-completion branch when the decremented
value is 0.  The Bool records whether a phase completion fired during this
tick. -/
def tickC (cfg : Config) (s : TimerState) : TimerState × Bool :=
  if s.isActive = true ∧ 0 < s.timeLeft then
    let s1 : TimerState := { s with timeLeft := s.timeLeft - 1 }
    if s1.timeLeft = 0 then (effectStep cfg s1, true) else (s1, false)
  else (s, false)

/-- One tick, state component only. -/
def tick (cfg : Config) (s : TimerState) : TimerState := (tickC cfg s).1

/-- Iterated ticks keeping a count of how many phase completions fired. -/
def ticksC (cfg : Config) : Nat → TimerState → TimerState × Nat
  | 0, s => (s, 0)
  | n + 1, s =>
    let r := tickC cfg s
    let rest := ticksC cfg n r.1
    (rest.1, (if r.2 then 1 else 0) + rest.2)

/-- Iterated ticks, state component only. -/
def ticks (cfg : Config) : Nat → TimerState → TimerState
  | 0, s => s
  | n + 1, s => ticks cfg n (tick cfg s)

/-- The start/pause button handler (lines 92-103): flips isActive. -/
def toggleTimer (s : TimerState) : TimerState := { s with isActive := !s.isActive }

/-- The reset button handler (lines 105-112): stop, back to focus phase,
reload the work duration; completedPomodoros untouched. -/
def resetTimer (cfg : Config) (s : TimerState) : TimerState :=
  { s with isActive := false, isBreak := false, timeLeft := cfg.workDuration * 60 }

/-- The reset-session handler (lines 114-117): resetTimer, then clear
completedPomodoros. -/
def resetSession (cfg : Config) (s : TimerState) : TimerState :=
  { resetTimer cfg s with completedPomodoros := 0 }

/-- The derived totalDuration (lines 134-136): work duration when not on
break; on break, the long break duration when completedPomodoros > 0 and
divisible by 4, otherwise the short break duration. -/
def totalDuration (cfg : Config) (s : TimerState) : Nat :=
  if s.isBreak = true then
    (if 0 < s.completedPomodoros ∧ s.completedPomodoros % 4 = 0 then
      cfg.longBreakDuration
     else cfg.shortBreakDuration) * 60
  else cfg.workDuration * 60

/-- The derived progress percentage (line 137):
((totalDuration - timeLeft) / totalDuration) * 100, over ℚ. -/
def progress (cfg : Config) (s : TimerState) : ℚ :=
  ((totalDuration cfg s : ℚ) - (s.timeLeft : ℚ)) / (totalDuration cfg s : ℚ) * 100

/-- The progress of the code expressed as a ratio in place of a
percentage. -/
def progressRatio (cfg : Config) (s : TimerState) : ℚ :=
  progress cfg s / 100

/-- Modelled from the spec: progressRatio as section 4.1 words it,
(phaseDurationSeconds - secondsRemaining) / phaseDurationSeconds clamped
to [0,1]; used to compare the display code against the spec formula. -/
def specProgressRatio (cfg : Config) (s : TimerState) : ℚ :=
  max 0 (min 1 (((totalDuration cfg s : ℚ) - (s.timeLeft : ℚ)) / (totalDuration cfg s : ℚ)))

/-- The declared configuration ranges (the min/max bounds of the four
range inputs, lines 248-304). -/
def cfgInRange (cfg : Config) : Prop :=
  15 ≤ cfg.workDuration ∧ cfg.workDuration ≤ 60 ∧
  3 ≤ cfg.shortBreakDuration ∧ cfg.shortBreakDuration ≤ 15 ∧
  15 ≤ cfg.longBreakDuration ∧ cfg.longBreakDuration ≤ 45 ∧
  0 ≤ cfg.alarmVolume ∧ cfg.alarmVolume ≤ 1

instance decCfgInRange (cfg : Config) : Decidable (cfgInRange cfg) :=
  inferInstanceAs (Decidable (_ ∧ _))

/-- Timer states reachable from a phase start under a fixed configuration
by the four user operations and the tick. -/
inductive Reach (cfg : Config) : TimerState → Prop where
  | init : Reach cfg ⟨cfg.workDuration * 60, false, false, 0⟩
  | stepToggle {s : TimerState} : Reach cfg s → Reach cfg (toggleTimer s)
  | stepTick {s : TimerState} : Reach cfg s → Reach cfg (tick cfg s)
  | stepReset {s : TimerState} : Reach cfg s → Reach cfg (resetTimer cfg s)
  | stepResetSession {s : TimerState} : Reach cfg s → Reach cfg (resetSession cfg s)

/-- Full application state: the timer state together with the
configuration. -/
structure App where
  timer : TimerState
  config : Config
  deriving DecidableEq

/-- One user-visible operation of the component: the three buttons, a
tick of the interval, and the four settings sliders. -/
inductive Op where
  | toggle
  | tickOp
  | reset
  | resetSess
  | setWork (v : Nat)
  | setShort (v : Nat)
  | setLong (v : Nat)
  | setVolume (v : ℚ)
  deriving DecidableEq

/-- An operation respects the declared slider ranges. -/
def Op.inRange : Op → Prop
  | .setWork v => 15 ≤ v ∧ v ≤ 60
  | .setShort v => 3 ≤ v ∧ v ≤ 15
  | .setLong v => 15 ≤ v ∧ v ≤ 45
  | .setVolume v => 0 ≤ v ∧ v ≤ 1
  | _ => True

instance decOpInRange (o : Op) : Decidable o.inRange :=
  match o with
  | .toggle => isTrue trivial
  | .tickOp => isTrue trivial
  | .reset => isTrue trivial
  | .resetSess => isTrue trivial
  | .setWork _ => inferInstanceAs (Decidable (_ ∧ _))
  | .setShort _ => inferInstanceAs (Decidable (_ ∧ _))
  | .setLong _ => inferInstanceAs (Decidable (_ ∧ _))
  | .setVolume _ => inferInstanceAs (Decidable (_ ∧ _))

/-- Apply one operation to the application state.  The settings onChange
handlers (lines 248-304) write only the configuration value. -/
def applyOp (a : App) : Op → App
  | .toggle => { a with timer := toggleTimer a.timer }
  | .tickOp => { a with timer := tick a.config a.timer }
  | .reset => { a with timer := resetTimer a.config a.timer }
  | .resetSess => { a with timer := resetSession a.config a.timer }
  | .setWork v => { a with config := { a.config with workDuration := v } }
  | .setShort v => { a with config := { a.config with shortBreakDuration := v } }
  | .setLong v => { a with config := { a.config with longBreakDuration := v } }
  | .setVolume v => { a with config := { a.config with alarmVolume := v } }

/-- Run a list of operations. -/
def runOps (a : App) : List Op → App
  | [] => a
  | op :: rest => runOps (applyOp a op) rest

/-- The application state at process start. -/
def initApp : App := ⟨initialTimer, initialConfig⟩

/-- Application states reachable from the initial state by any sequence of
operations whose slider edits stay within the declared ranges. -/
def ReachableApp (a : App) : Prop :=
  ∃ ops : List Op, (∀ op ∈ ops, op.inRange) ∧ runOps initApp ops = a

/-- The state after lowering workDuration from 25 to 15 while a full
25-minute focus countdown is pending. -/
def badApp : App := runOps initApp [Op.setWork 15]

/-- The spec scenario run: with default configuration, start and run each
phase to completion, four focus phases in total. -/
def scenario4 : TimerState :=
  ticks initialConfig 1500 (toggleTimer
    (ticks initialConfig 300 (toggleTimer
      (ticks initialConfig 1500 (toggleTimer
        (ticks initialConfig 300 (toggleTimer
          (ticks initialConfig 1500 (toggleTimer
            (ticks initialConfig 300 (toggleTimer
              (ticks initialConfig 1500 (toggleTimer initialTimer)))))))))))))

/-- Observable side effects of the alarm path. -/
inductive AlarmEvent where
  | beep (gain : ℚ)
  | audioFailureLogged
  | notify (title : String) (body : String)
  deriving DecidableEq

/-- Browser notification permission states. -/
inductive NotifPermission where
  | defaultPerm
  | granted
  | denied
  deriving DecidableEq

/-- playBeep (lines 23-45): the whole body is wrapped in try/catch, so an
audio backend failure is logged and swallowed; on success a tone at gain
alarmVolume * 0.3 is emitted.  The audio argument stands for the outcome
of the Web Audio calls. -/
def playBeep (audio : Except String Unit) (volume : ℚ) : List AlarmEvent :=
  match audio with
  | .ok _ => [.beep (volume * (3 / 10))]
  | .error _ => [.audioFailureLogged]

/-- playAlarm (lines 79-90): play the beep, then show a notification only
when the Notification API is available and permission is granted. -/
def playAlarm (audio : Except String Unit) (notifAvailable : Bool)
    (perm : NotifPermission) (cfg : Config) (wasBreak : Bool) : List AlarmEvent :=
  playBeep audio cfg.alarmVolume ++
    (if notifAvailable = true ∧ perm = NotifPermission.granted then
      [.notify (if wasBreak then "Break time is over!" else "Pomodoro completed!")
        (if wasBreak then "Time to get back to work!" else "Time for a break!")]
     else [])

/-- Phase completion with its alarm side effects: the state transition of
the effect together with the events playAlarm produces. -/
def completePhase (audio : Except String Unit) (notifAvailable : Bool)
    (perm : NotifPermission) (cfg : Config) (s : TimerState) :
    TimerState × List AlarmEvent :=
  (effectStep cfg s, playAlarm audio notifAvailable perm cfg s.isBreak)

/-! Helper lemmas about the tick iteration. -/

lemma ticks_eq_ticksC (cfg : Config) (n : Nat) (s : TimerState) :
    ticks cfg n s = (ticksC cfg n s).1 := by
  induction n generalizing s with
  | zero => rfl
  | succ n ih => simp [ticks, ticksC, tick, ih]

lemma tickC_mid (cfg : Config) (s : TimerState) (ha : s.isActive = true)
    (hm : 1 < s.timeLeft) :
    tickC cfg s = ({ s with timeLeft := s.timeLeft - 1 }, false) := by
  unfold tickC
  rw [if_pos ⟨ha, by omega⟩, if_neg (by simp; omega)]

lemma tickC_last (cfg : Config) (s : TimerState) (ha : s.isActive = true)
    (hm : s.timeLeft = 1) :
    tickC cfg s = (effectStep cfg { s with timeLeft := 0 }, true) := by
  unfold tickC
  rw [if_pos ⟨ha, by omega⟩, if_pos (by simp [hm])]
  simp [hm]

lemma ticksC_lt (cfg : Config) (k : Nat) (s : TimerState) (ha : s.isActive = true)
    (hk : k < s.timeLeft) :
    ticksC cfg k s = ({ s with timeLeft := s.timeLeft - k }, 0) := by
  induction k generalizing s with
  | zero => simp [ticksC]
  | succ k ih =>
    have h1 : 1 < s.timeLeft := by omega
    simp only [ticksC, tickC_mid cfg s ha h1]
    rw [ih { s with timeLeft := s.timeLeft - 1 } ha (by simp; omega)]
    simp
    omega

lemma ticksC_add (cfg : Config) (a b : Nat) (s : TimerState) :
    ticksC cfg (a + b) s =
      ((ticksC cfg b (ticksC cfg a s).1).1,
       (ticksC cfg a s).2 + (ticksC cfg b (ticksC cfg a s).1).2) := by
  induction a generalizing s with
  | zero => simp [ticksC]
  | succ a ih =>
    have h : a + 1 + b = (a + b) + 1 := by omega
    rw [h]
    simp only [ticksC, ih]
    simp [Nat.add_assoc]

lemma ticksC_one (cfg : Config) (s : TimerState) :
    ticksC cfg 1 s = ((tickC cfg s).1, if (tickC cfg s).2 then 1 else 0) := rfl

lemma ticksC_complete (cfg : Config) (s : TimerState) (n : Nat)
    (ha : s.isActive = true) (ht : s.timeLeft = n) (hn : 0 < n) :
    ticksC cfg n s = (effectStep cfg { s with timeLeft := 0 }, 1) := by
  obtain ⟨m, rfl⟩ : ∃ m, n = m + 1 := ⟨n - 1, by omega⟩
  rw [ticksC_add cfg m 1 s]
  rw [ticksC_lt cfg m s ha (by omega)]
  have h1 : ({ s with timeLeft := s.timeLeft - m } : TimerState).timeLeft = 1 := by
    simp; omega
  rw [ticksC_one, tickC_last cfg { s with timeLeft := s.timeLeft - m } ha h1]
  rfl

lemma ticks_complete (cfg : Config) (s : TimerState) (n : Nat)
    (ha : s.isActive = true) (ht : s.timeLeft = n) (hn : 0 < n) :
    ticks cfg n s = effectStep cfg { s with timeLeft := 0 } := by
  rw [ticks_eq_ticksC, ticksC_complete cfg s n ha ht hn]

lemma scenario4_eval : scenario4 = ⟨900, false, true, 4⟩ := by
  have e1 : ticks initialConfig 1500 (toggleTimer initialTimer) = ⟨300, false, true, 1⟩ := by
    rw [ticks_complete initialConfig (toggleTimer initialTimer) 1500 rfl rfl (by norm_num)]
    decide
  have e2 : ticks initialConfig 300 (toggleTimer (⟨300, false, true, 1⟩ : TimerState)) =
      ⟨1500, false, false, 1⟩ := by
    rw [ticks_complete initialConfig _ 300 rfl rfl (by norm_num)]
    decide
  have e3 : ticks initialConfig 1500 (toggleTimer (⟨1500, false, false, 1⟩ : TimerState)) =
      ⟨300, false, true, 2⟩ := by
    rw [ticks_complete initialConfig _ 1500 rfl rfl (by norm_num)]
    decide
  have e4 : ticks initialConfig 300 (toggleTimer (⟨300, false, true, 2⟩ : TimerState)) =
      ⟨1500, false, false, 2⟩ := by
    rw [ticks_complete initialConfig _ 300 rfl rfl (by norm_num)]
    decide
  have e5 : ticks initialConfig 1500 (toggleTimer (⟨1500, false, false, 2⟩ : TimerState)) =
      ⟨300, false, true, 3⟩ := by
    rw [ticks_complete initialConfig _ 1500 rfl rfl (by norm_num)]
    decide
  have e6 : ticks initialConfig 300 (toggleTimer (⟨300, false, true, 3⟩ : TimerState)) =
      ⟨1500, false, false, 3⟩ := by
    rw [ticks_complete initialConfig _ 300 rfl rfl (by norm_num)]
    decide
  have e7 : ticks initialConfig 1500 (toggleTimer (⟨1500, false, false, 3⟩ : TimerState)) =
      ⟨900, false, true, 4⟩ := by
    rw [ticks_complete initialConfig _ 1500 rfl rfl (by norm_num)]
    decide
  unfold scenario4
  rw [e1, e2, e3, e4, e5, e6, e7]

/-! Helper lemmas about the derived duration and the invariant. -/

lemma totalDuration_setTime (cfg : Config) (s : TimerState) (t : Nat) :
    totalDuration cfg { s with timeLeft := t } = totalDuration cfg s := rfl

lemma effectStep_totalDuration (cfg : Config) (s : TimerState) (h0 : s.timeLeft = 0) :
    totalDuration cfg (effectStep cfg s) = (effectStep cfg s).timeLeft := by
  obtain ⟨t, a, b, c⟩ := s
  simp at h0
  subst h0
  cases b with
  | true => simp [effectStep, totalDuration]
  | false => simp [effectStep, totalDuration, Nat.succ_pos]

lemma reach_inv (cfg : Config) (s : TimerState) (h : Reach cfg s) :
    s.timeLeft ≤ totalDuration cfg s := by
  induction h with
  | init => simp [totalDuration]
  | stepToggle _ ih => exact ih
  | stepTick _ ih =>
    rename_i s _
    show (tick cfg s).timeLeft ≤ totalDuration cfg (tick cfg s)
    unfold tick tickC
    by_cases hc : s.isActive = true ∧ 0 < s.timeLeft
    · rw [if_pos hc]
      by_cases h0 : s.timeLeft - 1 = 0
      · rw [if_pos (by simpa using h0)]
        exact le_of_eq (effectStep_totalDuration cfg _ (by simpa using h0)).symm
      · rw [if_neg (by simpa using h0)]
        simp only [totalDuration_setTime]
        show s.timeLeft - 1 ≤ totalDuration cfg s
        omega
    · rw [if_neg hc]
      exact ih
  | stepReset _ ih => simp [resetTimer, totalDuration]
  | stepResetSession _ ih => simp [resetSession, resetTimer, totalDuration]

lemma totalDuration_pos (cfg : Config) (s : TimerState) (hc : cfgInRange cfg) :
    0 < totalDuration cfg s := by
  obtain ⟨h1, h2, h3, h4, h5, h6, h7, h8⟩ := hc
  unfold totalDuration
  split
  · split <;> omega
  · omega

/-! Claim theorems. -/

/-- C1: when the countdown reaches 0 the effect completes the phase: a
completed focus phase increments completedPomodoros by exactly 1, sets
isBreak, loads longBreakDuration*60 when the incremented counter is
divisible by 4 and shortBreakDuration*60 otherwise, and stops the timer;
a completed break phase leaves completedPomodoros unchanged, clears
isBreak, loads workDuration*60, and stops the timer. -/
theorem phase_completion_transition (cfg : Config) (s : TimerState)
    (h0 : s.timeLeft = 0) :
    effectStep cfg s =
      if s.isBreak = true then
        ⟨cfg.workDuration * 60, false, false, s.completedPomodoros⟩
      else
        ⟨(if (s.completedPomodoros + 1) % 4 = 0 then cfg.longBreakDuration
          else cfg.shortBreakDuration) * 60, false, true, s.completedPomodoros + 1⟩ := by
  obtain ⟨t, a, b, c⟩ := s
  simp at h0
  subst h0
  cases b with
  | true => simp [effectStep]
  | false => simp [effectStep]

/-- Witness for C1: completing the first focus phase with the default
configuration yields a stopped 5-minute short break with one completed
pomodoro. -/
theorem phase_completion_transition_inst :
    effectStep initialConfig ⟨0, true, false, 0⟩ = ⟨300, false, true, 1⟩ := by
  rw [phase_completion_transition initialConfig ⟨0, true, false, 0⟩ rfl]
  decide

/-- C2: the break after a completed focus phase is long exactly when the
incremented counter is divisible by 4, and in the default-configuration
scenario the 4th completed focus phase leaves secondsRemaining = 900 and
completedFocusSessions = 4. -/
theorem long_break_selection (cfg : Config) (s : TimerState)
    (h0 : s.timeLeft = 0) (hb : s.isBreak = false) :
    (effectStep cfg s).timeLeft =
      (if (s.completedPomodoros + 1) % 4 = 0 then cfg.longBreakDuration
       else cfg.shortBreakDuration) * 60 ∧
    scenario4.timeLeft = 900 ∧ scenario4.completedPomodoros = 4 := by
  refine ⟨?_, by rw [scenario4_eval], by rw [scenario4_eval]⟩
  obtain ⟨t, a, b, c⟩ := s
  simp at h0 hb
  subst h0
  subst hb
  simp [effectStep]

/-- Witness for C2: completing a focus phase with three prior completed
pomodoros loads the long break. -/
theorem long_break_selection_inst :
    (effectStep initialConfig ⟨0, false, false, 3⟩).timeLeft =
      (if (3 + 1) % 4 = 0 then initialConfig.longBreakDuration
       else initialConfig.shortBreakDuration) * 60 ∧
    scenario4.timeLeft = 900 ∧ scenario4.completedPomodoros = 4 :=
  long_break_selection initialConfig ⟨0, false, false, 3⟩ rfl rfl

/-- C3: from a running state with timeLeft = n > 0, each of the first
n-1 ticks decrements timeLeft by exactly 1 without completing a phase,
and during the nth tick the countdown reaches 0 and exactly one phase
completion fires. -/
theorem tick_countdown_spec (cfg : Config) (s : TimerState) (n : Nat)
    (hn : 0 < n) (ha : s.isActive = true) (ht : s.timeLeft = n) :
    (∀ k, k < n → ticksC cfg k s = ({ s with timeLeft := n - k }, 0)) ∧
    ticksC cfg n s = (effectStep cfg { s with timeLeft := 0 }, 1) := by
  subst ht
  exact ⟨fun k hk => ticksC_lt cfg k s ha hk,
    ticksC_complete cfg s s.timeLeft ha rfl hn⟩

/-- Witness for C3: a 2-second running focus countdown ends with exactly
one phase completion. -/
theorem tick_countdown_spec_inst :
    ticksC initialConfig 2 ⟨2, true, false, 0⟩ =
      (effectStep initialConfig ⟨0, true, false, 0⟩, 1) :=
  (tick_countdown_spec initialConfig ⟨2, true, false, 0⟩ 2 (by norm_num) rfl rfl).2

/-- Counterexample to C4 as stated: the claim quantifies over every state
reachable under start/pause/tick/reset/resetSession and configuration
edits, but lowering workDuration from 25 to 15 (an in-range edit) while
the initial 1500-second focus countdown is pending makes timeLeft exceed
the derived phase duration of 900. -/
theorem invariant_fails_after_config_edit :
    ReachableApp badApp ∧
      totalDuration badApp.config badApp.timer < badApp.timer.timeLeft :=
  ⟨⟨[Op.setWork 15], by decide, rfl⟩, by decide⟩

/-- C4 amended: in every state reachable from a phase start by
start/pause/tick/reset/resetSession under a fixed configuration (no
configuration edits), timeLeft stays within [0, totalDuration]; the lower
bound is inherent to the Nat representation. -/
theorem reachable_invariant_fixed_config (cfg : Config) (s : TimerState)
    (h : Reach cfg s) : s.timeLeft ≤ totalDuration cfg s :=
  reach_inv cfg s h

/-- Witness for the amended C4: the state after one tick of the started
initial timer satisfies the invariant. -/
theorem reachable_invariant_inst :
    (tick initialConfig (toggleTimer initialTimer)).timeLeft ≤
      totalDuration initialConfig (tick initialConfig (toggleTimer initialTimer)) :=
  reachable_invariant_fixed_config initialConfig _
    (Reach.stepTick (Reach.stepToggle Reach.init))

/-- Counterexample to C5 as stated: in the reachable state obtained by
lowering workDuration from 25 to 15 mid-countdown, the code computes the
unclamped value -2/3 while the spec formula clamped to [0,1] gives 0. -/
theorem progress_clamp_fails_after_config_edit :
    ReachableApp badApp ∧
      progressRatio badApp.config badApp.timer ≠
        specProgressRatio badApp.config badApp.timer := by
  refine ⟨⟨[Op.setWork 15], by decide, rfl⟩, ?_⟩
  have hD : totalDuration badApp.config badApp.timer = 900 := by decide
  have hT : badApp.timer.timeLeft = 1500 := by decide
  have h1 : progressRatio badApp.config badApp.timer = -2 / 3 := by
    unfold progressRatio progress
    rw [hD, hT]
    norm_num
  have h2 : specProgressRatio badApp.config badApp.timer = 0 := by
    unfold specProgressRatio
    rw [hD, hT]
    rw [show ((900 : Nat) : ℚ) - ((1500 : Nat) : ℚ) = -600 by norm_num]
    rw [show (-600 : ℚ) / ((900 : Nat) : ℚ) = -2 / 3 by norm_num]
    rw [min_eq_right (by norm_num), max_eq_left (by norm_num)]
  rw [h1, h2]
  norm_num

/-- C5 amended: in every state reachable under a fixed in-range
configuration, the ratio the code displays agrees with the spec formula
(the clamp is the identity there), lies in [0,1], equals 0 at a phase
start (timeLeft = totalDuration), equals 1 when timeLeft = 0, and grows
strictly as timeLeft decreases. -/
theorem progress_ratio_spec_fixed_config (cfg : Config) (s : TimerState)
    (h : Reach cfg s) (hc : cfgInRange cfg) :
    progressRatio cfg s = specProgressRatio cfg s ∧
    0 ≤ progressRatio cfg s ∧ progressRatio cfg s ≤ 1 ∧
    (s.timeLeft = totalDuration cfg s → progressRatio cfg s = 0) ∧
    (s.timeLeft = 0 → progressRatio cfg s = 1) ∧
    (∀ t1 t2 : Nat, t1 < t2 → t2 ≤ totalDuration cfg s →
      progressRatio cfg { s with timeLeft := t2 } <
        progressRatio cfg { s with timeLeft := t1 }) := by
  have hD : 0 < totalDuration cfg s := totalDuration_pos cfg s hc
  have hQ : (0 : ℚ) < (totalDuration cfg s : ℚ) := by exact_mod_cast hD
  have ht : s.timeLeft ≤ totalDuration cfg s := reach_inv cfg s h
  have hQt : ((s.timeLeft : ℚ)) ≤ (totalDuration cfg s : ℚ) := by exact_mod_cast ht
  have hpr : ∀ u : TimerState, progressRatio cfg u =
      ((totalDuration cfg u : ℚ) - (u.timeLeft : ℚ)) / (totalDuration cfg u : ℚ) := by
    intro u
    unfold progressRatio progress
    rw [mul_div_assoc]
    norm_num
  have hpr2 : ∀ t : Nat, progressRatio cfg { s with timeLeft := t } =
      ((totalDuration cfg s : ℚ) - (t : ℚ)) / (totalDuration cfg s : ℚ) := by
    intro t
    rw [hpr { s with timeLeft := t }, totalDuration_setTime]
  have hx0 : 0 ≤ ((totalDuration cfg s : ℚ) - (s.timeLeft : ℚ)) / (totalDuration cfg s : ℚ) :=
    div_nonneg (by linarith) hQ.le
  have hx1 : ((totalDuration cfg s : ℚ) - (s.timeLeft : ℚ)) / (totalDuration cfg s : ℚ) ≤ 1 := by
    rw [div_le_one hQ]
    linarith
  refine ⟨?_, ?_, ?_, ?_, ?_, ?_⟩
  · rw [hpr s]
    unfold specProgressRatio
    rw [min_eq_right hx1, max_eq_right hx0]
  · rw [hpr s]
    exact hx0
  · rw [hpr s]
    exact hx1
  · intro hEq
    rw [hpr s, hEq]
    simp
  · intro hZero
    rw [hpr s, hZero]
    simp [div_self (ne_of_gt hQ)]
  · intro t1 t2 h12 h2D
    rw [hpr2 t1, hpr2 t2]
    rw [div_lt_div_iff_of_pos_right hQ]
    have hc12 : (t1 : ℚ) < (t2 : ℚ) := by exact_mod_cast h12
    linarith

/-- Witness for the amended C5: at the initial state the display ratio
agrees with the clamped spec formula. -/
theorem progress_ratio_spec_inst :
    progressRatio initialConfig initialTimer =
      specProgressRatio initialConfig initialTimer :=
  (progress_ratio_spec_fixed_config initialConfig initialTimer Reach.init
    (by norm_num [cfgInRange, initialConfig])).1

/-- Counterexample to C6 as stated: the only start/pause operation of the
code is the toggle, and invoking it on a running state is not a no-op; it
clears isRunning. -/
theorem start_not_idempotent :
    (toggleTimer ⟨1500, true, false, 0⟩).isActive = false ∧
      toggleTimer ⟨1500, true, false, 0⟩ ≠ (⟨1500, true, false, 0⟩ : TimerState) := by
  decide

/-- C6 amended: the start/pause control is a single toggle; invoked on a
running state it pauses (isRunning becomes false) and changes no other
TimerState field, and invoking it twice restores the original state, so
repeated presses cannot accumulate tick sources. -/
theorem toggle_on_running_pauses (s : TimerState) (h : s.isActive = true) :
    toggleTimer s = { s with isActive := false } ∧
      toggleTimer (toggleTimer s) = s := by
  obtain ⟨t, a, b, c⟩ := s
  simp at h
  subst h
  exact ⟨rfl, rfl⟩

/-- Witness for the amended C6: toggling a running countdown pauses it
and toggling again restores it. -/
theorem toggle_on_running_pauses_inst :
    toggleTimer ⟨1500, true, false, 0⟩ = (⟨1500, false, false, 0⟩ : TimerState) ∧
      toggleTimer (toggleTimer ⟨1500, true, false, 0⟩) = (⟨1500, true, false, 0⟩ : TimerState) :=
  toggle_on_running_pauses ⟨1500, true, false, 0⟩ rfl

/-- C7: resetTimer always produces the idle focus state with
workDuration*60 seconds and preserves completedPomodoros, and
resetSession produces the same state with completedPomodoros cleared. -/
theorem reset_and_reset_session_effects (cfg : Config) (s : TimerState) :
    resetTimer cfg s = ⟨cfg.workDuration * 60, false, false, s.completedPomodoros⟩ ∧
    resetSession cfg s = ⟨cfg.workDuration * 60, false, false, 0⟩ :=
  ⟨rfl, rfl⟩

/-- C8: for a break state produced by a focus-phase completion, the
display-time duration formula (completedPomodoros > 0 and divisible by 4)
returns exactly the duration the completion assigned to timeLeft. -/
theorem break_duration_consistency (cfg : Config) (s : TimerState)
    (h0 : s.timeLeft = 0) (_hb : s.isBreak = false) :
    totalDuration cfg (effectStep cfg s) = (effectStep cfg s).timeLeft :=
  effectStep_totalDuration cfg s h0

/-- Witness for C8: after the 4th focus completion the display formula
reproduces the long-break duration assigned at completion time. -/
theorem break_duration_consistency_inst :
    totalDuration initialConfig (effectStep initialConfig ⟨0, false, false, 3⟩) =
      (effectStep initialConfig ⟨0, false, false, 3⟩).timeLeft :=
  break_duration_consistency initialConfig ⟨0, false, false, 3⟩ rfl rfl

/-- C9: the timer state produced by a phase completion does not depend on
whether the audio backend succeeds or fails, nor on notification
availability or permission; the alarm path never propagates an error and
the state is exactly the effectStep transition. -/
theorem alarm_failures_swallowed (audio1 audio2 : Except String Unit)
    (na1 na2 : Bool) (p1 p2 : NotifPermission) (cfg : Config) (s : TimerState) :
    (completePhase audio1 na1 p1 cfg s).1 = (completePhase audio2 na2 p2 cfg s).1 ∧
    (completePhase audio1 na1 p1 cfg s).1 = effectStep cfg s :=
  ⟨rfl, rfl⟩

/-- C10: each settings slider writes only its configuration value and
leaves all four timer state fields unchanged, and a tick taken mid-phase
(timeLeft > 1) does not read the configuration at all, so new durations
only take effect at the next assignment of timeLeft. -/
theorem config_edit_frame (a : App) (v : Nat) (q : ℚ)
    (cfg cfg2 : Config) (s : TimerState) (h : 1 < s.timeLeft) :
    (applyOp a (Op.setWork v)).timer = a.timer ∧
    (applyOp a (Op.setShort v)).timer = a.timer ∧
    (applyOp a (Op.setLong v)).timer = a.timer ∧
    (applyOp a (Op.setVolume q)).timer = a.timer ∧
    tick cfg s = tick cfg2 s := by
  refine ⟨rfl, rfl, rfl, rfl, ?_⟩
  unfold tick tickC
  by_cases hA : s.isActive = true ∧ 0 < s.timeLeft
  · rw [if_pos hA, if_pos hA]
    rw [if_neg (by simp; omega), if_neg (by simp; omega)]
  · rw [if_neg hA, if_neg hA]

/-- Witness for C10: editing workDuration mid-countdown leaves the timer
state alone, and a mid-phase tick is the same under two different
configurations. -/
theorem config_edit_frame_inst :
    (applyOp initApp (Op.setWork 30)).timer = initApp.timer ∧
    (applyOp initApp (Op.setShort 30)).timer = initApp.timer ∧
    (applyOp initApp (Op.setLong 30)).timer = initApp.timer ∧
    (applyOp initApp (Op.setVolume (1 / 4))).timer = initApp.timer ∧
    tick initialConfig ⟨100, true, false, 0⟩ = tick ⟨30, 10, 20, 1⟩ ⟨100, true, false, 0⟩ :=
  config_edit_frame initApp 30 (1 / 4) initialConfig ⟨30, 10, 20, 1⟩
    ⟨100, true, false, 0⟩ (by norm_num)

end Pomodoro
